import Mathlib

/-!
Verification of the KubeFleet hub agent excerpt: the namespace-affinity
scheduler plugin, the staged update-run metric emitters, and the hub agent
option handling. Go values are shallowly embedded: durations and timestamps
become integer nanoseconds, Go maps become association lists, nilable
pointers and maps become Option, and Prometheus metric vectors become lists
of labelled series or samples threaded through the recording functions.
-/

namespace KubeFleet

/-- Durations and timestamps are integer nanosecond counts, mirroring the
representation of a Go time.Duration. -/
abbrev Duration := Int

/-- One millisecond in nanoseconds. -/
def millisecond : Duration := 1000000

/-- One second in nanoseconds. -/
def second : Duration := 1000000000

/-- Mirrors metav1.ConditionStatus, the status field of a condition. -/
inductive ConditionStatus where
  | conditionTrue
  | conditionFalse
  | conditionUnknown
deriving DecidableEq, Repr

/-- The string label a condition status carries on a metric series. -/
def ConditionStatus.toLabel : ConditionStatus → String
  | .conditionTrue => "True"
  | .conditionFalse => "False"
  | .conditionUnknown => "Unknown"

/-- Mirrors metav1.Condition: a typed status entry attached to an object. -/
structure Condition where
  type : String
  status : ConditionStatus
  reason : String
  message : String
  observedGeneration : Int
  lastTransitionTime : Int
deriving DecidableEq, Repr

/-- Mirrors meta.FindStatusCondition: the first condition in the list whose
type matches, if any. -/
def findStatusCondition (conditions : List Condition) (conditionType : String) : Option Condition :=
  conditions.find? (fun c => c.type == conditionType)

/-- Mirrors the propertyprovider constant naming the namespace-collection
capability condition type reported on a member cluster. -/
def namespaceCollectionSucceededCondType : String := "NamespaceCollectionSucceeded"

/-- Mirrors clusterv1beta1.MemberClusterStatus, restricted to the fields the
namespace-affinity plugin reads: the condition list and the namespace
inventory map, which is nil (none) when no data has been collected. -/
structure MemberClusterStatus where
  conditions : List Condition
  namespaces : Option (List (String × String))
deriving DecidableEq, Repr

/-- Mirrors clusterv1beta1.MemberCluster. -/
structure MemberCluster where
  name : String
  status : MemberClusterStatus
deriving DecidableEq, Repr

/-- A policy snapshot as the plugin sees it: the object name and namespace.
A cluster-scoped snapshot carries the empty namespace. -/
structure PolicySnapshot where
  name : String
  objNamespace : String
deriving DecidableEq, Repr

/-- Mirrors the framework status codes used at the plugin extension points. -/
inductive StatusCode where
  | success
  | skip
  | clusterUnschedulable
  | internalError
deriving DecidableEq, Repr

/-- Mirrors framework.Status for non-error outcomes: the code, the
originating plugin name, and the reason message. -/
structure Status where
  code : StatusCode
  pluginName : String
  message : String
deriving DecidableEq, Repr

/-- Mirrors framework.NewNonErrorStatus. -/
def NewNonErrorStatus (code : StatusCode) (pluginName : String) (reason : String) : Status :=
  ⟨code, pluginName, reason⟩

/-- The namespace-affinity plugin: only its name matters to the extension
points under audit. -/
structure Plugin where
  name : String
deriving DecidableEq, Repr

/-- Mirrors Plugin.PreFilter of the namespace-affinity plugin: skip the
whole Filter pass for cluster-scoped snapshots (empty namespace), pass
namespace-scoped snapshots through. -/
def Plugin.PreFilter (p : Plugin) (ps : PolicySnapshot) : Option Status :=
  let nsName := ps.objNamespace
  if nsName == "" then
    some (NewNonErrorStatus StatusCode.skip p.name
      "cluster-scoped placement does not require namespace affinity filtering")
  else
    none

/-- Mirrors Plugin.Filter of the namespace-affinity plugin: a cluster with
no namespace-collection condition passes (back-compat); with the condition
present but a nil inventory it is unschedulable; with an inventory that
lacks the target namespace it is unschedulable; otherwise it passes. -/
def Plugin.Filter (p : Plugin) (ps : PolicySnapshot) (cluster : MemberCluster) : Option Status :=
  let nsName := ps.objNamespace
  match findStatusCondition cluster.status.conditions namespaceCollectionSucceededCondType with
  | none => none
  | some _ =>
    match cluster.status.namespaces with
    | none =>
      some (NewNonErrorStatus StatusCode.clusterUnschedulable p.name
        "cluster has no namespace information available")
    | some namespaces =>
      if (namespaces.find? (fun kv => kv.fst == nsName)).isSome then
        none
      else
        some (NewNonErrorStatus StatusCode.clusterUnschedulable p.name
          "target namespace does not exist on cluster")

/-- Condition type for a succeeded staged update run. -/
def stagedUpdateRunConditionSucceeded : String := "Succeeded"

/-- Condition type for a progressing staged update run. -/
def stagedUpdateRunConditionProgressing : String := "Progressing"

/-- Condition type for an initialized staged update run. -/
def stagedUpdateRunConditionInitialized : String := "Initialized"

/-- Condition type recording that an approval request was created for a
stage task. -/
def stageTaskConditionApprovalRequestCreated : String := "ApprovalRequestCreated"

/-- Condition type recording that an approval request was approved. -/
def stageTaskConditionApprovalRequestApproved : String := "ApprovalRequestApproved"

/-- Mirrors the UpdateRunObj surface the metric emitters read: object
namespace and name, generation, the spec state, and the status
conditions. -/
structure UpdateRun where
  objNamespace : String
  objName : String
  generation : Int
  state : String
  conditions : List Condition
deriving DecidableEq, Repr

/-- Mirrors placementv1beta1.StageTaskStatus, restricted to the condition
list read by the approval latency recorder. -/
structure StageTaskStatus where
  conditions : List Condition
deriving DecidableEq, Repr

/-- Mirrors placementv1beta1.StageUpdatingStatus, restricted to the start
time read by the stage duration recorder; nil start time becomes none. -/
structure StageUpdatingStatus where
  startTime : Option Int
deriving DecidableEq, Repr

/-- The label set of the update run status timestamp gauge vector. -/
structure RunStatusLabels where
  labelNamespace : String
  labelName : String
  labelState : String
  labelCondition : String
  labelStatus : String
  labelReason : String
deriving DecidableEq, Repr

/-- A gauge vector holds one current value per label set. -/
abbrev RunStatusGauge := List (RunStatusLabels × Int)

/-- Mirrors WithLabelValues followed by SetToCurrentTime on a gauge vector:
the series with the given labels is created or overwritten with the
current timestamp. -/
def gaugeSetToCurrentTime (g : RunStatusGauge) (labels : RunStatusLabels) (now : Int) : RunStatusGauge :=
  (g.filter (fun e => e.fst != labels)) ++ [(labels, now)]

/-- One observation of the approval request latency histogram, with its
label values. -/
structure ApprovalSample where
  labelNamespace : String
  labelName : String
  labelTaskType : String
  value : Int
deriving DecidableEq, Repr

/-- One observation of the stage cluster-updating duration histogram, with
its label values. -/
structure StageSample where
  labelNamespace : String
  labelName : String
  value : Int
deriving DecidableEq, Repr

/-- The three run-scoped hub metrics the update run controller touches. -/
structure HubMetrics where
  runStatusGauge : RunStatusGauge
  stageDurationHist : List StageSample
  approvalLatencyHist : List ApprovalSample
deriving DecidableEq, Repr

/-- Mirrors DeletePartialMatch on the status gauge: every series whose
namespace and name labels both match is dropped. -/
def deletePartialMatchGauge (g : RunStatusGauge) (ns nm : String) : RunStatusGauge :=
  g.filter (fun e => !(e.fst.labelNamespace == ns && e.fst.labelName == nm))

/-- Mirrors DeletePartialMatch on the stage duration histogram. -/
def deletePartialMatchStage (h : List StageSample) (ns nm : String) : List StageSample :=
  h.filter (fun s => !(s.labelNamespace == ns && s.labelName == nm))

/-- Mirrors DeletePartialMatch on the approval latency histogram. -/
def deletePartialMatchApproval (h : List ApprovalSample) (ns nm : String) : List ApprovalSample :=
  h.filter (fun s => !(s.labelNamespace == ns && s.labelName == nm))

/-- Mirrors deleteUpdateRunMetrics: drops every series matching the deleted
run namespace and name from the three run-scoped metrics. -/
def deleteUpdateRunMetrics (m : HubMetrics) (updateRun : UpdateRun) : HubMetrics :=
  { runStatusGauge := deletePartialMatchGauge m.runStatusGauge updateRun.objNamespace updateRun.objName
    stageDurationHist := deletePartialMatchStage m.stageDurationHist updateRun.objNamespace updateRun.objName
    approvalLatencyHist := deletePartialMatchApproval m.approvalLatencyHist updateRun.objNamespace updateRun.objName }

/-- The guard the status emitter applies per condition type: the condition
found for the type, kept only when its observed generation matches the run
generation. -/
def currentGenCondition (conditions : List Condition) (conditionType : String) (generation : Int) : Option Condition :=
  match findStatusCondition conditions conditionType with
  | some c => if c.observedGeneration == generation then some c else none
  | none => none

/-- Mirrors emitUpdateRunStatusMetric: reports the first of the Succeeded,
Progressing, Initialized conditions found at the current generation, in
that order, and leaves the gauge untouched when none qualifies. -/
def emitUpdateRunStatusMetric (g : RunStatusGauge) (updateRun : UpdateRun) (now : Int) : RunStatusGauge :=
  match currentGenCondition updateRun.conditions stagedUpdateRunConditionSucceeded updateRun.generation with
  | some c =>
    gaugeSetToCurrentTime g
      ⟨updateRun.objNamespace, updateRun.objName, updateRun.state,
        stagedUpdateRunConditionSucceeded, c.status.toLabel, c.reason⟩ now
  | none =>
    match currentGenCondition updateRun.conditions stagedUpdateRunConditionProgressing updateRun.generation with
    | some c =>
      gaugeSetToCurrentTime g
        ⟨updateRun.objNamespace, updateRun.objName, updateRun.state,
          stagedUpdateRunConditionProgressing, c.status.toLabel, c.reason⟩ now
    | none =>
      match currentGenCondition updateRun.conditions stagedUpdateRunConditionInitialized updateRun.generation with
      | some c =>
        gaugeSetToCurrentTime g
          ⟨updateRun.objNamespace, updateRun.objName, updateRun.state,
            stagedUpdateRunConditionInitialized, c.status.toLabel, c.reason⟩ now
      | none => g

/-- Modelled from the spec: the condition utility IsConditionStatusTrue,
whose source file is not part of the excerpt. Per the spec, a condition
passes only when it is present, currently true, and carries the current run
generation as its observed generation. -/
def isConditionStatusTrue (cond : Option Condition) (generation : Int) : Bool :=
  match cond with
  | none => false
  | some c => c.status == ConditionStatus.conditionTrue && c.observedGeneration == generation

/-- Mirrors recordApprovalRequestLatency: a sample equal to the gap between
the two approval condition transition times is observed only when both the
created and the approved conditions pass the current-generation truth
check; otherwise the histogram is left untouched. -/
def recordApprovalRequestLatency (hist : List ApprovalSample) (stageTaskStatus : StageTaskStatus)
    (updateRun : UpdateRun) (taskType : String) : List ApprovalSample :=
  let approvalCreatedCond :=
    findStatusCondition stageTaskStatus.conditions stageTaskConditionApprovalRequestCreated
  let approvalApprovedCond :=
    findStatusCondition stageTaskStatus.conditions stageTaskConditionApprovalRequestApproved
  if !isConditionStatusTrue approvalCreatedCond updateRun.generation
      || !isConditionStatusTrue approvalApprovedCond updateRun.generation then
    hist
  else
    match approvalCreatedCond, approvalApprovedCond with
    | some created, some approved =>
      hist ++ [⟨updateRun.objNamespace, updateRun.objName, taskType,
        approved.lastTransitionTime - created.lastTransitionTime⟩]
    | _, _ => hist

/-- Mirrors recordStageClusterUpdatingDuration: with a nil start time the
histogram is left untouched, otherwise one sample equal to the time since
the start is observed. -/
def recordStageClusterUpdatingDuration (hist : List StageSample) (stageStatus : StageUpdatingStatus)
    (updateRun : UpdateRun) (now : Int) : List StageSample :=
  match stageStatus.startTime with
  | none => hist
  | some startTime =>
    hist ++ [⟨updateRun.objNamespace, updateRun.objName, now - startTime⟩]

/-- Mirrors RateLimitOptions: delays in nanoseconds, queries-per-second and
bucket size as integers. -/
structure RateLimitOptions where
  rateLimiterBaseDelay : Duration
  rateLimiterMaxDelay : Duration
  rateLimiterQPS : Int
  rateLimiterBucketSize : Int
deriving DecidableEq, Repr

/-- The parameters of the work-queue rate limiter the constructor builds:
base and max delay of the per-item exponential failure limiter and rate
plus burst of the token bucket limiter. -/
structure ControllerRateLimiter where
  itemBaseDelay : Duration
  itemMaxDelay : Duration
  bucketQPS : Int
  bucketSize : Int
deriving DecidableEq, Repr

/-- Mirrors DefaultControllerRateLimiter: any non-positive option is first
replaced by its default (5ms, 60s, 10, 100) and the limiter is then built
from the resulting values. -/
def DefaultControllerRateLimiter (opts : RateLimitOptions) : ControllerRateLimiter :=
  let baseDelay := if opts.rateLimiterBaseDelay ≤ 0 then 5 * millisecond else opts.rateLimiterBaseDelay
  let maxDelay := if opts.rateLimiterMaxDelay ≤ 0 then 60 * second else opts.rateLimiterMaxDelay
  let qps := if opts.rateLimiterQPS ≤ 0 then 10 else opts.rateLimiterQPS
  let bucketSize := if opts.rateLimiterBucketSize ≤ 0 then 100 else opts.rateLimiterBucketSize
  ⟨baseDelay, maxDelay, qps, bucketSize⟩

/-- Mirrors the Set method of WorkPendingGracePeriodValueWithValidation:
whatever the input string and the previously stored duration, it returns no
error and stores exactly 15 seconds. -/
def workPendingGracePeriodSet (stored : Duration) (input : String) : Option String × Duration :=
  (none, 15 * second)

/-- Mirrors field.Invalid as the validator uses it: the field path and the
human detail message; the echoed bad value is omitted as no claim reads
it. -/
structure FieldError where
  fieldPath : List String
  detail : String
deriving DecidableEq, Repr

/-- Mirrors ControllerManagerOptions, restricted to the fields Validate
reads; the hub QPS limit, a float64 in the source, is embedded as a
rational number. -/
structure ControllerManagerOptions where
  hubQPS : Rat
  hubBurst : Int
deriving DecidableEq, Repr

/-- Mirrors WebhookOptions, restricted to the fields Validate reads. -/
structure WebhookOptions where
  enableWebhooks : Bool
  serviceName : String
  useCertManager : Bool
  enableWorkload : Bool
deriving DecidableEq, Repr

/-- Mirrors PlacementManagementOptions, restricted to the fields Validate
reads. -/
structure PlacementManagementOptions where
  allowedPropagatingAPIs : String
  skippedPropagatingAPIs : String
  placementControllerWorkQueueRateLimiterOpts : RateLimitOptions
deriving DecidableEq, Repr

/-- Mirrors the hub agent Options value, restricted to the option groups
Validate reads. -/
structure Options where
  ctrlMgrOpts : ControllerManagerOptions
  webhookOpts : WebhookOptions
  placementMgmtOpts : PlacementManagementOptions
deriving DecidableEq, Repr

/-- Field path of the burst limit cross-field error. -/
def hubBurstPath : List String := ["Options", "HubBurst"]

/-- Field path of the webhook service name error. -/
def webhookServiceNamePath : List String := ["Options", "WebhookServiceName"]

/-- Field path of the cert manager error. -/
def useCertManagerPath : List String := ["Options", "UseCertManager"]

/-- Field path of the mutually exclusive API lists error. -/
def allowedPropagatingAPIsPath : List String := ["Options", "AllowedPropagatingAPIs"]

/-- Field path of the rate limiter base delay error. -/
def rateLimiterBaseDelayPath : List String :=
  ["Options", "PlacementControllerWorkQueueRateLimiterOpts", "RateLimiterBaseDelay"]

/-- Field path of the rate limiter QPS error. -/
def rateLimiterQPSPath : List String :=
  ["Options", "PlacementControllerWorkQueueRateLimiterOpts", "RateLimiterQPS"]

/-- Mirrors Options.Validate: the cross-field checks appended in source
order, each contributing one field error when its condition holds. -/
def Options.Validate (o : Options) : List FieldError :=
  (if (o.ctrlMgrOpts.hubBurst : Rat) < o.ctrlMgrOpts.hubQPS then
    [⟨hubBurstPath,
      "The burst limit for client-side throttling must be greater than or equal to its QPS limit"⟩]
  else []) ++
  (if o.webhookOpts.enableWebhooks && o.webhookOpts.serviceName == "" then
    [⟨webhookServiceNamePath,
      "A webhook service name is required when webhooks are enabled"⟩]
  else []) ++
  (if o.webhookOpts.useCertManager && !o.webhookOpts.enableWorkload then
    [⟨useCertManagerPath,
      "If cert manager is used for securing webhook connections, the EnableWorkload option must be set to true, so that cert manager pods can run in the hub cluster."⟩]
  else []) ++
  (if o.placementMgmtOpts.allowedPropagatingAPIs != "" && o.placementMgmtOpts.skippedPropagatingAPIs != "" then
    [⟨allowedPropagatingAPIsPath,
      "AllowedPropagatingAPIs and SkippedPropagatingAPIs options are mutually exclusive"⟩]
  else []) ++
  (if o.placementMgmtOpts.placementControllerWorkQueueRateLimiterOpts.rateLimiterBaseDelay ≥
      o.placementMgmtOpts.placementControllerWorkQueueRateLimiterOpts.rateLimiterMaxDelay then
    [⟨rateLimiterBaseDelayPath,
      "the base delay for the placement controller set rate limiter must be less than its max delay"⟩]
  else []) ++
  (if o.placementMgmtOpts.placementControllerWorkQueueRateLimiterOpts.rateLimiterQPS >
      o.placementMgmtOpts.placementControllerWorkQueueRateLimiterOpts.rateLimiterBucketSize then
    [⟨rateLimiterQPSPath,
      "the QPS for the placement controller set rate limiter must be less than its bucket size"⟩]
  else [])

/-- Demo plugin instance carrying the default plugin name. -/
def demoPlugin : Plugin := ⟨"NamespaceAffinity"⟩

/-- Demo namespace-scoped policy snapshot targeting test-namespace. -/
def demoSnapshot : PolicySnapshot := ⟨"test-policy", "test-namespace"⟩

/-- Demo cluster-scoped policy snapshot (empty namespace). -/
def demoClusterScopedSnapshot : PolicySnapshot := ⟨"test-policy", ""⟩

/-- Demo namespace-collection capability condition with status True. -/
def demoNamespaceCond : Condition :=
  ⟨namespaceCollectionSucceededCondType, ConditionStatus.conditionTrue,
    "AllNamespacesCollected", "", 0, 0⟩

/-- Demo inventory where the target namespace maps to the empty string. -/
def demoNamespacesEmptyVal : List (String × String) := [("test-namespace", "")]

/-- Demo cluster whose inventory carries the target namespace with an empty
representative value. -/
def demoClusterEmptyVal : MemberCluster :=
  ⟨"cluster-1", ⟨[demoNamespaceCond], some demoNamespacesEmptyVal⟩⟩

/-- C1: for a namespace-scoped snapshot, Filter passes a cluster without the
namespace-collection condition, rejects a condition-bearing cluster with a
nil inventory as having no namespace information, rejects one whose
inventory lacks the target namespace as missing the namespace, and passes
one whose inventory carries the target namespace as a key, whatever the
mapped value. -/
theorem c1_namespace_affinity_filter_cases (p : Plugin) (ps : PolicySnapshot)
    (cluster : MemberCluster) (hns : ps.objNamespace ≠ "") :
    (findStatusCondition cluster.status.conditions namespaceCollectionSucceededCondType = none →
      Plugin.Filter p ps cluster = none) ∧
    (∀ c, findStatusCondition cluster.status.conditions namespaceCollectionSucceededCondType = some c →
      cluster.status.namespaces = none →
      Plugin.Filter p ps cluster =
        some (NewNonErrorStatus StatusCode.clusterUnschedulable p.name
          "cluster has no namespace information available")) ∧
    (∀ c nsMap,
      findStatusCondition cluster.status.conditions namespaceCollectionSucceededCondType = some c →
      cluster.status.namespaces = some nsMap →
      (∀ kv ∈ nsMap, kv.fst ≠ ps.objNamespace) →
      Plugin.Filter p ps cluster =
        some (NewNonErrorStatus StatusCode.clusterUnschedulable p.name
          "target namespace does not exist on cluster")) ∧
    (∀ c nsMap,
      findStatusCondition cluster.status.conditions namespaceCollectionSucceededCondType = some c →
      cluster.status.namespaces = some nsMap →
      (∃ kv ∈ nsMap, kv.fst = ps.objNamespace) →
      Plugin.Filter p ps cluster = none) := by
  refine ⟨?_, ?_, ?_, ?_⟩
  · intro h
    simp [Plugin.Filter, h]
  · intro c hc hn
    simp [Plugin.Filter, hc, hn]
  · intro c nsMap hc hn hall
    have hfind : nsMap.find? (fun kv => kv.fst == ps.objNamespace) = none := by
      rw [List.find?_eq_none]
      intro kv hkv
      simpa using hall kv hkv
    simp [Plugin.Filter, hc, hn, hfind]
  · intro c nsMap hc hn hex
    have hfind : (nsMap.find? (fun kv => kv.fst == ps.objNamespace)).isSome = true := by
      rw [List.find?_isSome]
      obtain ⟨kv, hkv, he⟩ := hex
      exact ⟨kv, hkv, by simpa using he⟩
    simp [Plugin.Filter, hc, hn, hfind]

/-- C1 witness: the eligible case where the target namespace maps to the
empty string on a cluster with the capability condition present. -/
theorem c1_namespace_affinity_filter_cases_witness :
    Plugin.Filter demoPlugin demoSnapshot demoClusterEmptyVal = none := by
  have h := c1_namespace_affinity_filter_cases demoPlugin demoSnapshot demoClusterEmptyVal
    (by decide)
  exact h.2.2.2 demoNamespaceCond demoNamespacesEmptyVal (by decide) (by decide)
    ⟨("test-namespace", ""), by decide, rfl⟩

/-- C2: PreFilter returns a Skip status exactly on cluster-scoped snapshots
(empty namespace), returns nil on namespace-scoped ones, and never returns
an error status. -/
theorem c2_namespace_affinity_prefilter (p : Plugin) (ps : PolicySnapshot) :
    (ps.objNamespace = "" →
      Plugin.PreFilter p ps =
        some (NewNonErrorStatus StatusCode.skip p.name
          "cluster-scoped placement does not require namespace affinity filtering")) ∧
    (ps.objNamespace ≠ "" → Plugin.PreFilter p ps = none) ∧
    ((∃ s, Plugin.PreFilter p ps = some s ∧ s.code = StatusCode.skip) ↔ ps.objNamespace = "") ∧
    (∀ s, Plugin.PreFilter p ps = some s → s.code ≠ StatusCode.internalError) := by
  refine ⟨?_, ?_, ?_, ?_⟩
  · intro h
    simp [Plugin.PreFilter, h]
  · intro h
    simp [Plugin.PreFilter, h]
  · constructor
    · rintro ⟨s, hs, hcode⟩
      by_cases h : ps.objNamespace = ""
      · exact h
      · simp [Plugin.PreFilter, h] at hs
    · intro h
      refine ⟨NewNonErrorStatus StatusCode.skip p.name
        "cluster-scoped placement does not require namespace affinity filtering", ?_, rfl⟩
      simp [Plugin.PreFilter, h]
  · intro s hs hcode
    by_cases h : ps.objNamespace = ""
    · simp [Plugin.PreFilter, h] at hs
      rw [← hs] at hcode
      simp [NewNonErrorStatus] at hcode
    · simp [Plugin.PreFilter, h] at hs

/-- C2 witness: the Skip outcome on a cluster-scoped snapshot and the nil
outcome on a namespace-scoped one. -/
theorem c2_namespace_affinity_prefilter_witness :
    Plugin.PreFilter demoPlugin demoClusterScopedSnapshot =
      some (NewNonErrorStatus StatusCode.skip "NamespaceAffinity"
        "cluster-scoped placement does not require namespace affinity filtering") ∧
    Plugin.PreFilter demoPlugin demoSnapshot = none := by
  constructor
  · exact (c2_namespace_affinity_prefilter demoPlugin demoClusterScopedSnapshot).1 rfl
  · exact (c2_namespace_affinity_prefilter demoPlugin demoSnapshot).2.1 (by decide)

/-- Demo stage task condition: approval request created at time 100,
generation 1, status True. -/
def demoCreatedCond : Condition :=
  ⟨stageTaskConditionApprovalRequestCreated, ConditionStatus.conditionTrue,
    "AfterStageTaskApprovalRequestCreated", "", 1, 100⟩

/-- Demo stage task condition: approval request approved at time 400,
generation 1, status True. -/
def demoApprovedCond : Condition :=
  ⟨stageTaskConditionApprovalRequestApproved, ConditionStatus.conditionTrue,
    "AfterStageTaskApprovalRequestApproved", "", 1, 400⟩

/-- Demo stage task status carrying both approval conditions. -/
def demoTaskStatus : StageTaskStatus := ⟨[demoCreatedCond, demoApprovedCond]⟩

/-- Demo update run at generation 1. -/
def demoRun : UpdateRun := ⟨"ns-1", "run-1", 1, "Run", []⟩

/-- C3: the approval latency recorder leaves the histogram unchanged unless
both approval conditions are present, true, and carry the current run
generation, and in that case appends exactly the gap between the two
condition transition times. -/
theorem c3_record_approval_latency_guard (hist : List ApprovalSample) (sts : StageTaskStatus)
    (run : UpdateRun) (taskType : String) :
    (findStatusCondition sts.conditions stageTaskConditionApprovalRequestCreated = none →
      recordApprovalRequestLatency hist sts run taskType = hist) ∧
    (findStatusCondition sts.conditions stageTaskConditionApprovalRequestApproved = none →
      recordApprovalRequestLatency hist sts run taskType = hist) ∧
    (∀ c, findStatusCondition sts.conditions stageTaskConditionApprovalRequestCreated = some c →
      ¬(c.status = ConditionStatus.conditionTrue ∧ c.observedGeneration = run.generation) →
      recordApprovalRequestLatency hist sts run taskType = hist) ∧
    (∀ c, findStatusCondition sts.conditions stageTaskConditionApprovalRequestApproved = some c →
      ¬(c.status = ConditionStatus.conditionTrue ∧ c.observedGeneration = run.generation) →
      recordApprovalRequestLatency hist sts run taskType = hist) ∧
    (∀ created approved,
      findStatusCondition sts.conditions stageTaskConditionApprovalRequestCreated = some created →
      findStatusCondition sts.conditions stageTaskConditionApprovalRequestApproved = some approved →
      created.status = ConditionStatus.conditionTrue →
      created.observedGeneration = run.generation →
      approved.status = ConditionStatus.conditionTrue →
      approved.observedGeneration = run.generation →
      recordApprovalRequestLatency hist sts run taskType =
        hist ++ [⟨run.objNamespace, run.objName, taskType,
          approved.lastTransitionTime - created.lastTransitionTime⟩]) := by
  refine ⟨?_, ?_, ?_, ?_, ?_⟩
  · intro h
    simp [recordApprovalRequestLatency, isConditionStatusTrue, h]
  · intro h
    simp [recordApprovalRequestLatency, isConditionStatusTrue, h]
  · intro c hc hne
    rcases not_and_or.mp hne with h | h <;>
      simp [recordApprovalRequestLatency, isConditionStatusTrue, hc, h]
  · intro c hc hne
    rcases not_and_or.mp hne with h | h <;>
      simp [recordApprovalRequestLatency, isConditionStatusTrue, hc, h]
  · intro created approved hc ha hs1 hg1 hs2 hg2
    simp [recordApprovalRequestLatency, isConditionStatusTrue, hc, ha, hs1, hg1, hs2, hg2]

/-- C3 witness: on a task with both approval conditions true at the current
generation, one sample equal to the transition time gap is recorded. -/
theorem c3_record_approval_latency_guard_witness :
    recordApprovalRequestLatency [] demoTaskStatus demoRun "Approval" =
      [⟨"ns-1", "run-1", "Approval", 300⟩] := by
  have h := (c3_record_approval_latency_guard [] demoTaskStatus demoRun "Approval").2.2.2.2
    demoCreatedCond demoApprovedCond (by decide) (by decide) rfl rfl rfl rfl
  rw [h]
  decide

/-- C4 counterexample: calling the recorder a second time on the same
already-approved, unchanged task state appends a second sample, so the
histogram grows from one to two samples. -/
theorem c4_counterexample_duplicate_sample :
    (recordApprovalRequestLatency [] demoTaskStatus demoRun "Approval").length = 1 ∧
    (recordApprovalRequestLatency
        (recordApprovalRequestLatency [] demoTaskStatus demoRun "Approval")
        demoTaskStatus demoRun "Approval").length = 2 := by
  decide

/-- C4 amended: every call made while both approval conditions are true at
the current run generation appends exactly one sample, so repeated calls on
the same approved state each add a sample; the at-most-once property must
come from the caller, not from this function. -/
theorem c4_qualifying_call_appends_one_sample (hist : List ApprovalSample) (sts : StageTaskStatus)
    (run : UpdateRun) (taskType : String) :
    (recordApprovalRequestLatency hist sts run taskType).length =
      hist.length +
        (if (isConditionStatusTrue
              (findStatusCondition sts.conditions stageTaskConditionApprovalRequestCreated)
              run.generation &&
            isConditionStatusTrue
              (findStatusCondition sts.conditions stageTaskConditionApprovalRequestApproved)
              run.generation) then 1 else 0) := by
  cases hc : findStatusCondition sts.conditions stageTaskConditionApprovalRequestCreated with
  | none => simp [recordApprovalRequestLatency, isConditionStatusTrue, hc]
  | some created =>
    cases ha : findStatusCondition sts.conditions stageTaskConditionApprovalRequestApproved with
    | none => simp [recordApprovalRequestLatency, isConditionStatusTrue, hc, ha]
    | some approved =>
      cases hA : isConditionStatusTrue (some created) run.generation <;>
        cases hB : isConditionStatusTrue (some approved) run.generation <;>
        simp [recordApprovalRequestLatency, hc, ha, hA, hB]

/-- C5: the status emitter reports the Succeeded condition when one is found
at the current generation, otherwise the Progressing condition, otherwise
the Initialized condition, and emits nothing when none qualifies. -/
theorem c5_emit_update_run_status_priority (g : RunStatusGauge) (run : UpdateRun) (now : Int) :
    (∀ c, currentGenCondition run.conditions stagedUpdateRunConditionSucceeded run.generation = some c →
      emitUpdateRunStatusMetric g run now =
        gaugeSetToCurrentTime g
          ⟨run.objNamespace, run.objName, run.state, stagedUpdateRunConditionSucceeded,
            c.status.toLabel, c.reason⟩ now) ∧
    (currentGenCondition run.conditions stagedUpdateRunConditionSucceeded run.generation = none →
      ∀ c, currentGenCondition run.conditions stagedUpdateRunConditionProgressing run.generation = some c →
      emitUpdateRunStatusMetric g run now =
        gaugeSetToCurrentTime g
          ⟨run.objNamespace, run.objName, run.state, stagedUpdateRunConditionProgressing,
            c.status.toLabel, c.reason⟩ now) ∧
    (currentGenCondition run.conditions stagedUpdateRunConditionSucceeded run.generation = none →
      currentGenCondition run.conditions stagedUpdateRunConditionProgressing run.generation = none →
      ∀ c, currentGenCondition run.conditions stagedUpdateRunConditionInitialized run.generation = some c →
      emitUpdateRunStatusMetric g run now =
        gaugeSetToCurrentTime g
          ⟨run.objNamespace, run.objName, run.state, stagedUpdateRunConditionInitialized,
            c.status.toLabel, c.reason⟩ now) ∧
    (currentGenCondition run.conditions stagedUpdateRunConditionSucceeded run.generation = none →
      currentGenCondition run.conditions stagedUpdateRunConditionProgressing run.generation = none →
      currentGenCondition run.conditions stagedUpdateRunConditionInitialized run.generation = none →
      emitUpdateRunStatusMetric g run now = g) := by
  refine ⟨?_, ?_, ?_, ?_⟩
  · intro c hc
    simp [emitUpdateRunStatusMetric, hc]
  · intro hs c hc
    simp [emitUpdateRunStatusMetric, hs, hc]
  · intro hs hp c hc
    simp [emitUpdateRunStatusMetric, hs, hp, hc]
  · intro hs hp hi
    simp [emitUpdateRunStatusMetric, hs, hp, hi]

/-- Demo run condition: Succeeded at the current generation 2. -/
def demoSucceededCond : Condition :=
  ⟨stagedUpdateRunConditionSucceeded, ConditionStatus.conditionTrue, "UpdateRunSucceeded", "", 2, 500⟩

/-- Demo run condition: Progressing left over from generation 1. -/
def demoStaleProgressingCond : Condition :=
  ⟨stagedUpdateRunConditionProgressing, ConditionStatus.conditionFalse, "StaleProgress", "", 1, 450⟩

/-- Demo update run at generation 2 carrying a stale Progressing condition
and a current Succeeded condition. -/
def demoEmitRun : UpdateRun := ⟨"ns-1", "run-5", 2, "Run", [demoStaleProgressingCond, demoSucceededCond]⟩

/-- C5 witness: a run with a stale Progressing condition and a current
Succeeded condition reports Succeeded. -/
theorem c5_emit_update_run_status_priority_witness :
    emitUpdateRunStatusMetric [] demoEmitRun 1000 =
      [(⟨"ns-1", "run-5", "Run", "Succeeded", "True", "UpdateRunSucceeded"⟩, 1000)] := by
  have h := (c5_emit_update_run_status_priority [] demoEmitRun 1000).1 demoSucceededCond (by decide)
  rw [h]
  decide

/-- C6: deleting a run removes every series labelled with its namespace and
name from all three run-scoped metrics at once, and keeps every series of
any other run. -/
theorem c6_delete_update_run_metrics (m : HubMetrics) (run : UpdateRun) :
    (∀ e ∈ (deleteUpdateRunMetrics m run).runStatusGauge,
      ¬(e.fst.labelNamespace = run.objNamespace ∧ e.fst.labelName = run.objName)) ∧
    (∀ s ∈ (deleteUpdateRunMetrics m run).stageDurationHist,
      ¬(s.labelNamespace = run.objNamespace ∧ s.labelName = run.objName)) ∧
    (∀ s ∈ (deleteUpdateRunMetrics m run).approvalLatencyHist,
      ¬(s.labelNamespace = run.objNamespace ∧ s.labelName = run.objName)) ∧
    (∀ e ∈ m.runStatusGauge,
      e.fst.labelNamespace ≠ run.objNamespace ∨ e.fst.labelName ≠ run.objName →
      e ∈ (deleteUpdateRunMetrics m run).runStatusGauge) ∧
    (∀ s ∈ m.stageDurationHist,
      s.labelNamespace ≠ run.objNamespace ∨ s.labelName ≠ run.objName →
      s ∈ (deleteUpdateRunMetrics m run).stageDurationHist) ∧
    (∀ s ∈ m.approvalLatencyHist,
      s.labelNamespace ≠ run.objNamespace ∨ s.labelName ≠ run.objName →
      s ∈ (deleteUpdateRunMetrics m run).approvalLatencyHist) := by
  refine ⟨?_, ?_, ?_, ?_, ?_, ?_⟩
  · intro e he
    simp [deleteUpdateRunMetrics, deletePartialMatchGauge, List.mem_filter] at he
    exact not_and_or.mpr he.2
  · intro s hs
    simp [deleteUpdateRunMetrics, deletePartialMatchStage, List.mem_filter] at hs
    exact not_and_or.mpr hs.2
  · intro s hs
    simp [deleteUpdateRunMetrics, deletePartialMatchApproval, List.mem_filter] at hs
    exact not_and_or.mpr hs.2
  · intro e he hne
    simp [deleteUpdateRunMetrics, deletePartialMatchGauge, List.mem_filter]
    exact ⟨he, hne⟩
  · intro s hs hne
    simp [deleteUpdateRunMetrics, deletePartialMatchStage, List.mem_filter]
    exact ⟨hs, hne⟩
  · intro s hs hne
    simp [deleteUpdateRunMetrics, deletePartialMatchApproval, List.mem_filter]
    exact ⟨hs, hne⟩

/-- Demo gauge labels of a run that must survive deletion of run-1. -/
def demoLabelsKeep : RunStatusLabels := ⟨"ns-1", "run-2", "Run", "Progressing", "True", "ok"⟩

/-- Demo metric state holding series for two runs across all three
run-scoped metrics. -/
def demoHubMetrics : HubMetrics :=
  ⟨[(⟨"ns-1", "run-1", "Run", "Succeeded", "True", "ok"⟩, 10), (demoLabelsKeep, 20)],
   [⟨"ns-1", "run-1", 5⟩, ⟨"ns-1", "run-2", 6⟩],
   [⟨"ns-1", "run-1", "Approval", 30⟩, ⟨"ns-1", "run-2", "Approval", 40⟩]⟩

/-- C6 witness: deleting run-1 keeps the status gauge series of run-2. -/
theorem c6_delete_update_run_metrics_witness :
    (demoLabelsKeep, 20) ∈ (deleteUpdateRunMetrics demoHubMetrics demoRun).runStatusGauge := by
  have h := (c6_delete_update_run_metrics demoHubMetrics demoRun).2.2.2.1
  exact h (demoLabelsKeep, 20) (by decide) (Or.inr (by decide))

/-- C7: the work-pending-grace-period flag setter accepts every input,
returns no error, and stores exactly 15 seconds whatever the input string
and the previously stored value. -/
theorem c7_work_pending_grace_period_noop (stored : Duration) (input : String) :
    workPendingGracePeriodSet stored input = (none, 15 * second) := rfl

/-- C8: the stage duration recorder leaves the histogram untouched when the
stage has no start time, and otherwise appends exactly one sample equal to
the wall-clock time elapsed since the start time. -/
theorem c8_record_stage_updating_duration (hist : List StageSample)
    (stageStatus : StageUpdatingStatus) (run : UpdateRun) (now : Int) :
    (stageStatus.startTime = none →
      recordStageClusterUpdatingDuration hist stageStatus run now = hist) ∧
    (∀ t, stageStatus.startTime = some t →
      recordStageClusterUpdatingDuration hist stageStatus run now =
        hist ++ [⟨run.objNamespace, run.objName, now - t⟩]) := by
  constructor
  · intro h
    simp [recordStageClusterUpdatingDuration, h]
  · intro t h
    simp [recordStageClusterUpdatingDuration, h]

/-- Demo stage status that started at time 700. -/
def demoStageStatus : StageUpdatingStatus := ⟨some 700⟩

/-- C8 witness: observing at time 1000 a stage started at time 700 records
one sample of 300. -/
theorem c8_record_stage_updating_duration_witness :
    recordStageClusterUpdatingDuration [] demoStageStatus demoRun 1000 =
      [⟨"ns-1", "run-1", 300⟩] := by
  have h := (c8_record_stage_updating_duration [] demoStageStatus demoRun 1000).2 700 rfl
  rw [h]
  decide

/-- C9 counterexample: with every option set to zero the constructed
limiter is built from the defaults, not from the supplied values. -/
theorem c9_counterexample_default_substitution :
    DefaultControllerRateLimiter ⟨0, 0, 0, 0⟩ =
      ⟨5 * millisecond, 60 * second, 10, 100⟩ ∧
    (DefaultControllerRateLimiter ⟨0, 0, 0, 0⟩).itemBaseDelay ≠ 0 := by
  decide

/-- C9 amended: the limiter is built from the supplied values unchanged
whenever all four of them are positive; any non-positive value is replaced
by its default before construction. -/
theorem c9_rate_limiter_uses_positive_values_unchanged (opts : RateLimitOptions)
    (h1 : 0 < opts.rateLimiterBaseDelay) (h2 : 0 < opts.rateLimiterMaxDelay)
    (h3 : 0 < opts.rateLimiterQPS) (h4 : 0 < opts.rateLimiterBucketSize) :
    DefaultControllerRateLimiter opts =
      ⟨opts.rateLimiterBaseDelay, opts.rateLimiterMaxDelay,
        opts.rateLimiterQPS, opts.rateLimiterBucketSize⟩ := by
  simp [DefaultControllerRateLimiter, not_le.mpr h1, not_le.mpr h2, not_le.mpr h3, not_le.mpr h4]

/-- C9 witness: the default flag values pass through the constructor
unchanged. -/
theorem c9_rate_limiter_uses_positive_values_unchanged_witness :
    DefaultControllerRateLimiter ⟨5 * millisecond, 60 * second, 10, 100⟩ =
      ⟨5 * millisecond, 60 * second, 10, 100⟩ := by
  exact c9_rate_limiter_uses_positive_values_unchanged
    ⟨5 * millisecond, 60 * second, 10, 100⟩ (by decide) (by decide) (by decide) (by decide)

/-- Membership in a conditional singleton error block. -/
theorem mem_ite_singleton {c : Prop} [Decidable c] {x e : FieldError} :
    (e ∈ if c then [x] else ([] : List FieldError)) ↔ c ∧ e = x := by
  split_ifs with h <;> simp [h]

/-- Characterization of the validator output: an error is reported exactly
when its cross-field condition holds. -/
theorem validate_mem (o : Options) (e : FieldError) :
    e ∈ Options.Validate o ↔
      (((o.ctrlMgrOpts.hubBurst : Rat) < o.ctrlMgrOpts.hubQPS) ∧
        e = ⟨hubBurstPath,
          "The burst limit for client-side throttling must be greater than or equal to its QPS limit"⟩) ∨
      ((o.webhookOpts.enableWebhooks && o.webhookOpts.serviceName == "") ∧
        e = ⟨webhookServiceNamePath,
          "A webhook service name is required when webhooks are enabled"⟩) ∨
      ((o.webhookOpts.useCertManager && !o.webhookOpts.enableWorkload) ∧
        e = ⟨useCertManagerPath,
          "If cert manager is used for securing webhook connections, the EnableWorkload option must be set to true, so that cert manager pods can run in the hub cluster."⟩) ∨
      ((o.placementMgmtOpts.allowedPropagatingAPIs != "" && o.placementMgmtOpts.skippedPropagatingAPIs != "") ∧
        e = ⟨allowedPropagatingAPIsPath,
          "AllowedPropagatingAPIs and SkippedPropagatingAPIs options are mutually exclusive"⟩) ∨
      ((o.placementMgmtOpts.placementControllerWorkQueueRateLimiterOpts.rateLimiterBaseDelay ≥
          o.placementMgmtOpts.placementControllerWorkQueueRateLimiterOpts.rateLimiterMaxDelay) ∧
        e = ⟨rateLimiterBaseDelayPath,
          "the base delay for the placement controller set rate limiter must be less than its max delay"⟩) ∨
      ((o.placementMgmtOpts.placementControllerWorkQueueRateLimiterOpts.rateLimiterQPS >
          o.placementMgmtOpts.placementControllerWorkQueueRateLimiterOpts.rateLimiterBucketSize) ∧
        e = ⟨rateLimiterQPSPath,
          "the QPS for the placement controller set rate limiter must be less than its bucket size"⟩) := by
  unfold Options.Validate
  simp only [List.mem_append, mem_ite_singleton]
  tauto

/-- C10: validation reports the base delay error exactly when the base
delay is greater than or equal to the max delay, but reports the QPS error
only when the QPS strictly exceeds the bucket size, while the message of
that error still demands strictly less; equality of QPS and bucket size
therefore passes. -/
theorem c10_validate_rate_limiter_asymmetry (o : Options) :
    ((∃ e ∈ Options.Validate o, e.fieldPath = rateLimiterBaseDelayPath) ↔
      o.placementMgmtOpts.placementControllerWorkQueueRateLimiterOpts.rateLimiterBaseDelay ≥
        o.placementMgmtOpts.placementControllerWorkQueueRateLimiterOpts.rateLimiterMaxDelay) ∧
    ((∃ e ∈ Options.Validate o, e.fieldPath = rateLimiterQPSPath) ↔
      o.placementMgmtOpts.placementControllerWorkQueueRateLimiterOpts.rateLimiterQPS >
        o.placementMgmtOpts.placementControllerWorkQueueRateLimiterOpts.rateLimiterBucketSize) ∧
    (∀ e ∈ Options.Validate o, e.fieldPath = rateLimiterQPSPath →
      e.detail =
        "the QPS for the placement controller set rate limiter must be less than its bucket size") := by
  refine ⟨⟨?_, ?_⟩, ⟨?_, ?_⟩, ?_⟩
  · rintro ⟨e, he, hpath⟩
    rcases (validate_mem o e).mp he with ⟨hc, rfl⟩ | ⟨hc, rfl⟩ | ⟨hc, rfl⟩ | ⟨hc, rfl⟩ |
        ⟨hc, rfl⟩ | ⟨hc, rfl⟩ <;>
      first
        | exact hc
        | exact absurd hpath (by decide)
  · intro hge
    refine ⟨⟨rateLimiterBaseDelayPath,
      "the base delay for the placement controller set rate limiter must be less than its max delay"⟩,
      ?_, rfl⟩
    exact (validate_mem o _).mpr (Or.inr (Or.inr (Or.inr (Or.inr (Or.inl ⟨hge, rfl⟩)))))
  · rintro ⟨e, he, hpath⟩
    rcases (validate_mem o e).mp he with ⟨hc, rfl⟩ | ⟨hc, rfl⟩ | ⟨hc, rfl⟩ | ⟨hc, rfl⟩ |
        ⟨hc, rfl⟩ | ⟨hc, rfl⟩ <;>
      first
        | exact hc
        | exact absurd hpath (by decide)
  · intro hgt
    refine ⟨⟨rateLimiterQPSPath,
      "the QPS for the placement controller set rate limiter must be less than its bucket size"⟩,
      ?_, rfl⟩
    exact (validate_mem o _).mpr (Or.inr (Or.inr (Or.inr (Or.inr (Or.inr ⟨hgt, rfl⟩)))))
  · intro e he hpath
    rcases (validate_mem o e).mp he with ⟨hc, rfl⟩ | ⟨hc, rfl⟩ | ⟨hc, rfl⟩ | ⟨hc, rfl⟩ |
        ⟨hc, rfl⟩ | ⟨hc, rfl⟩ <;>
      first
        | rfl
        | exact absurd hpath (by decide)

/-- Demo options whose rate limiter QPS equals its bucket size, with every
other cross-field check satisfied. -/
def demoEqualQPSOptions : Options :=
  ⟨⟨250, 1000⟩, ⟨true, "test-webhook", false, false⟩,
    ⟨"", "fleet.azure.com", ⟨5 * millisecond, 60 * second, 100, 100⟩⟩⟩

/-- C10 witness: with QPS equal to the bucket size, validation emits no QPS
error. -/
theorem c10_validate_rate_limiter_asymmetry_witness :
    ¬ ∃ e ∈ Options.Validate demoEqualQPSOptions, e.fieldPath = rateLimiterQPSPath := by
  intro hex
  have h := (c10_validate_rate_limiter_asymmetry demoEqualQPSOptions).2.1.mp hex
  exact absurd h (by decide)

end KubeFleet
